import Mathlib

/-!
Shallow embedding of the Half-car-model playback viewers.

The repository has two scripts that replay a pre-computed half-car
simulation CSV as a 2D animation:
  - `sim-viewer.py`: class `VehicleDynamicsAnimator` with a car registry,
    derived acceleration channel, braking classification and runtime
    profile switching (fps = 30);
  - `animation.py`: a module-level script with fixed geometry constants
    (fps = 60) and no acceleration channel.

Numbers are modelled over `ℚ` (the Python floats are an implementation
detail of exact arithmetic on the spec formulas); `np.sin` is abstracted
as a function parameter `sin : ℚ → ℚ` since no claim depends on more than
its value at the sampled pitch (in witnesses we use concrete pitch 0 and
a function with `sin 0 = 0`).  A pandas NaN produced by `diff()` at index
0 is modelled as `none`; the IEEE rule that any comparison with NaN is
false becomes the `none => false` branch of the braking classification.
-/

set_option autoImplicit false

namespace HalfCar

/-- One row of the simulation CSV: columns
`time, x_abs, ys, theta, yu1, yu2, v_abs`. -/
structure SimRow where
  time : ℚ
  x_abs : ℚ
  ys : ℚ
  theta : ℚ
  yu1 : ℚ
  yu2 : ℚ
  v_abs : ℚ
deriving Repr, DecidableEq

namespace SimViewer

/-- `sim_dt = 0.001` (sim-viewer.py line 14). -/
def sim_dt : ℚ := 1 / 1000

/-- `fps = 30` (sim-viewer.py line 15). -/
def fps : ℚ := 30

/-- `step_size = int((1/fps) / sim_dt)` (sim-viewer.py line 16).
Python `int()` truncates toward zero; the operand is positive, so this
is the floor. -/
def step_size : ℕ := (⌊((1 : ℚ) / fps) / sim_dt⌋).toNat

/-- The `car_params` registry (sim-viewer.py lines 8-12), name to
`(L1, L2)`; a missing key is `none` (Python would raise `KeyError`). -/
def car_params (name : String) : Option (ℚ × ℚ) :=
  if name = "GR86" then some (128/100, 129/100)
  else if name = "LexusLS" then some (155/100, 157/100)
  else if name = "Samber" then some (95/100, 95/100)
  else none

/-- Consecutive deltas of the `time` column: `df['time'].diff()` with the
leading NaN dropped (as `.mean()` skips it). -/
def timeDiffs (rows : List SimRow) : List ℚ :=
  ((rows.map SimRow.time).zip (rows.map SimRow.time).tail).map
    (fun p => p.2 - p.1)

/-- `dt = df['time'].diff().mean()` (sim-viewer.py line 84): a single
series-wide mean of the consecutive time deltas. -/
def meanDt (rows : List SimRow) : ℚ :=
  (timeDiffs rows).sum / ((timeDiffs rows).length : ℚ)

/-- `df['accel'] = df['v_abs'].diff() / dt` (sim-viewer.py line 85):
elementwise, `accel[0]` is NaN (`none`) and
`accel[i] = (v_abs[i] - v_abs[i-1]) / dt` for `i > 0`. -/
def computeAccel (rows : List SimRow) : List (Option ℚ) :=
  (List.range rows.length).map (fun i =>
    match i with
    | 0 => none
    | j + 1 =>
      match rows[j + 1]?, rows[j]? with
      | some r, some rp => some ((r.v_abs - rp.v_abs) / meanDt rows)
      | _, _ => none)

/-- The `accel` column value read back at row `j` (`row['accel']`). -/
def accelAt (rows : List SimRow) (j : ℕ) : Option ℚ :=
  (computeAccel rows).getD j none

/-- `idx = frame * step_size; if idx >= len(df): idx = len(df) - 1`
(sim-viewer.py lines 103-105).  Over `ℤ`, because for an empty frame the
clamping produces `-1`. -/
def rowIndex (n : ℕ) (frame : ℕ) : ℤ :=
  if (n : ℤ) ≤ (frame : ℤ) * (step_size : ℤ) then (n : ℤ) - 1
  else (frame : ℤ) * (step_size : ℤ)

/-- Positional indexing semantics of `df.iloc[i]`: a valid non-negative
index is taken as is, a negative index counts from the end, anything
else raises `IndexError` (`none`). -/
def ilocIdx (n : ℕ) (i : ℤ) : Option ℕ :=
  if 0 ≤ i ∧ i < (n : ℤ) then some i.toNat
  else if 0 ≤ i + (n : ℤ) ∧ i < 0 then some (i + (n : ℤ)).toNat
  else none

/-- The row position actually fetched by `update` for a given frame. -/
def usedIdx (n : ℕ) (frame : ℕ) : Option ℕ :=
  ilocIdx n (rowIndex n frame)

/-- The per-tick output of `VehicleDynamicsAnimator.update`: every datum
the artists are set to (sim-viewer.py lines 116-148).  Pitch is kept in
radians; the display conversion `np.degrees` and the float text
formatting are injective presentation steps carrying no extra state. -/
structure RenderState where
  body : (ℚ × ℚ) × (ℚ × ℚ)
  susp_f : (ℚ × ℚ) × (ℚ × ℚ)
  susp_r : (ℚ × ℚ) × (ℚ × ℚ)
  wheel_f : ℚ × ℚ
  wheel_r : ℚ × ℚ
  xlim : ℚ × ℚ
  ylim : ℚ × ℚ
  braking : Bool
  car : String
  time : ℚ
  v_abs : ℚ
  theta : ℚ
deriving Repr, DecidableEq

/-- Builds the render state from the fetched row (sim-viewer.py lines
113-148): body/strut geometry with ground offset `0.75`, wheel centers
offset by the wheel radius `0.25`, camera window `x ± 5`, `y ∈ [-1, 3]`,
braking iff `accel < -1.0` (false on NaN). -/
def mkRenderState (sin : ℚ → ℚ) (car : String) (L1 L2 : ℚ)
    (row : SimRow) (accel : Option ℚ) : RenderState :=
  let y_f := row.ys + L1 * sin row.theta + 3/4
  let y_r := row.ys - L2 * sin row.theta + 3/4
  { body := ((row.x_abs - L2, y_r), (row.x_abs + L1, y_f))
    susp_f := ((row.x_abs + L1, row.yu1), (row.x_abs + L1, y_f))
    susp_r := ((row.x_abs - L2, row.yu2), (row.x_abs - L2, y_r))
    wheel_f := (row.x_abs + L1, row.yu1 + 1/4)
    wheel_r := (row.x_abs - L2, row.yu2 + 1/4)
    xlim := (row.x_abs - 5, row.x_abs + 5)
    ylim := (-1, 3)
    braking := match accel with
      | none => false
      | some a => decide (a < -1)
    car := car
    time := row.time
    v_abs := row.v_abs
    theta := row.theta }

/-- Outcome of one `update(frame)` call: `noData` is the early
`if self.df is None: return self.body,` path (artists untouched),
`indexError` a raised `IndexError` from `iloc`, `keyError` a raised
`KeyError` from the registry lookup, `frameState` a full redraw. -/
inductive UpdateResult where
  | noData
  | indexError
  | keyError
  | frameState (s : RenderState)
deriving Repr, DecidableEq

/-- Mutable state of `VehicleDynamicsAnimator` relevant to playback:
the loaded frame (`df`, `none` before a successful load), the selected
car, the frame total `len(df) // step_size` frozen into `FuncAnimation`
at construction, and the position of the animation frame sequence. -/
structure Viewer where
  df : Option (List SimRow)
  current_car : String
  framesTotal : ℕ
  nextFrame : ℕ
deriving Repr, DecidableEq

/-- `VehicleDynamicsAnimator.update` (sim-viewer.py lines 100-151). -/
def update (sin : ℚ → ℚ) (v : Viewer) (frame : ℕ) : UpdateResult :=
  match v.df with
  | none => .noData
  | some df =>
    match usedIdx df.length frame with
    | none => .indexError
    | some j =>
      match df[j]? with
      | none => .indexError
      | some row =>
        match car_params v.current_car with
        | none => .keyError
        | some p =>
          .frameState (mkRenderState sin v.current_car p.1 p.2 row (accelAt df j))

/-- `load_data(car_name)` (sim-viewer.py lines 77-94).  `fs` abstracts
the filesystem, mapping a path to the parsed CSV rows or `none` for
`FileNotFoundError`.  On success `df` and `current_car` are replaced
(the derived `accel` column is a pure function of the rows, read back
via `accelAt`); on failure the handler only prints, leaving the state
untouched. -/
def load_data (fs : String → Option (List SimRow)) (v : Viewer)
    (car_name : String) : Viewer :=
  match fs ("csv/" ++ car_name ++ "_sim.csv") with
  | some rows => { v with df := some rows, current_car := car_name }
  | none => v

/-- `change_car(car_name)` (sim-viewer.py lines 96-98): calls
`load_data` and then unconditionally rewinds the animation with
`self.ani.frame_seq = self.ani.new_frame_seq()` — also when the load
failed. -/
def change_car (fs : String → Option (List SimRow)) (v : Viewer)
    (car_name : String) : Viewer :=
  let v := load_data fs v car_name
  { v with nextFrame := 0 }

/-- `VehicleDynamicsAnimator.__init__` playback state (sim-viewer.py
lines 57-75): `df = None`, `current_car = "GR86"`, `load_data("GR86")`,
then `FuncAnimation(..., frames=len(self.df) // step_size, ...)`.
`frames` is an int captured once; `new_frame_seq()` re-yields
`range(frames)` and never recomputes it.  If the initial load failed,
`len(self.df)` raises on `None` (`none`). -/
def newViewer (fs : String → Option (List SimRow)) : Option Viewer :=
  let v0 : Viewer :=
    { df := none, current_car := "GR86", framesTotal := 0, nextFrame := 0 }
  let v1 := load_data fs v0 "GR86"
  match v1.df with
  | none => none
  | some rows => some { v1 with framesTotal := rows.length / step_size }

/-- The frame values `FuncAnimation` feeds to `update`: `range(frames)`
with the frozen frame total. -/
def frameSeq (v : Viewer) : List ℕ :=
  List.range v.framesTotal

/-- One iteration of the animation event loop: draw the frame at the
current position of the frame sequence and advance it.  `none` when the
sequence is exhausted (what the loop does then — repeat — is outside the
claims). -/
def tick (sin : ℚ → ℚ) (v : Viewer) : Option (UpdateResult × Viewer) :=
  if v.nextFrame < v.framesTotal then
    some (update sin v v.nextFrame, { v with nextFrame := v.nextFrame + 1 })
  else none

/-- Projection used to state properties of a successful redraw. -/
def renderOf (r : UpdateResult) : Option RenderState :=
  match r with
  | .frameState s => some s
  | _ => none

end SimViewer

namespace Anim

/-- `sim_dt = 0.001` (animation.py line 11). -/
def sim_dt : ℚ := 1 / 1000

/-- `fps = 60` (animation.py line 12). -/
def fps : ℚ := 60

/-- `step_size = int((1/fps) / sim_dt)` (animation.py line 13),
truncation of a positive value. -/
def step_size : ℕ := (⌊((1 : ℚ) / fps) / sim_dt⌋).toNat

/-- `L1, L2 = 1.2, 1.3` (animation.py line 10). -/
def L1 : ℚ := 12/10

/-- Rear wheelbase offset of animation.py. -/
def L2 : ℚ := 13/10

/-- The per-tick output of animation.py `update` (lines 39-51): body
and strut segments with ground offset `0.5`, wheel centers exactly at
the unsprung heights, camera `x ± 5`, `y ∈ [-1, 3]`, title data. -/
structure AnimState where
  body : (ℚ × ℚ) × (ℚ × ℚ)
  susp_f : (ℚ × ℚ) × (ℚ × ℚ)
  susp_r : (ℚ × ℚ) × (ℚ × ℚ)
  wheel_f : ℚ × ℚ
  wheel_r : ℚ × ℚ
  xlim : ℚ × ℚ
  ylim : ℚ × ℚ
  time : ℚ
  v_abs : ℚ
deriving Repr, DecidableEq

/-- Outcome of one animation.py `update(frame)` call: `skip` is the
early `if idx >= len(df): return body,` path — the artists keep
whatever data the previous frame set; no row is fetched. -/
inductive AnimResult where
  | skip
  | frameState (s : AnimState)
deriving Repr, DecidableEq

/-- animation.py `update` (lines 29-53). -/
def update (sin : ℚ → ℚ) (df : List SimRow) (frame : ℕ) : AnimResult :=
  let idx := frame * step_size
  match df[idx]? with
  | none => .skip
  | some row =>
    let y_f := row.ys + L1 * sin row.theta + 1/2
    let y_r := row.ys - L2 * sin row.theta + 1/2
    .frameState
      { body := ((row.x_abs - L2, y_r), (row.x_abs + L1, y_f))
        susp_f := ((row.x_abs + L1, row.yu1), (row.x_abs + L1, y_f))
        susp_r := ((row.x_abs - L2, row.yu2), (row.x_abs - L2, y_r))
        wheel_f := (row.x_abs + L1, row.yu1)
        wheel_r := (row.x_abs - L2, row.yu2)
        xlim := (row.x_abs - 5, row.x_abs + 5)
        ylim := (-1, 3)
        time := row.time
        v_abs := row.v_abs }

/-- Projection used to state properties of a successful redraw. -/
def renderOf (r : AnimResult) : Option AnimState :=
  match r with
  | .frameState s => some s
  | _ => none

end Anim

/-- A pitch function with `sin 0 = 0`, enough for rows sampled at zero
pitch; concrete instantiations only ever evaluate `sin` at `0`. -/
def sin0 : ℚ → ℚ := fun _ => 0

/-- A row at the origin, all channels zero. -/
def r0 : SimRow := ⟨0, 0, 0, 0, 0, 0, 0⟩

/-- A second sample, one second later, one metre further on. -/
def r1 : SimRow := ⟨1, 1, 0, 0, 0, 0, 0⟩

/-- Samples with moving speed, for exercising the accel channel. -/
def ra : SimRow := ⟨1, 1, 0, 0, 0, 0, 3⟩

/-- Third accel sample. -/
def rb : SimRow := ⟨2, 2, 0, 0, 0, 0, 5⟩

/-- Decelerating samples: speed drops 10 → 5 m/s in one second. -/
def rc0 : SimRow := ⟨0, 0, 0, 0, 0, 0, 10⟩

/-- Second decelerating sample. -/
def rc1 : SimRow := ⟨1, 0, 0, 0, 0, 0, 5⟩

/-- The worked example row of the spec:
`{time:1.0, x_abs:10.0, ys:0.0, theta:0.0, yu1:0.0, yu2:0.0}`. -/
def exRow : SimRow := ⟨1, 10, 0, 0, 0, 0, 0⟩

/-- A filesystem with no CSV files: every load fails. -/
def fsNone : String → Option (List SimRow) := fun _ => none

/-- A filesystem resolving every path to the three-sample series. -/
def fs3 : String → Option (List SimRow) := fun _ => some [r0, ra, rb]

/-- Viewer state for the failed-switch scenario: two rows loaded, the
frame sequence advanced to position 1. -/
def vC3 : SimViewer.Viewer := ⟨some [r0, r1], "GR86", 2, 1⟩

end HalfCar

namespace HalfCar.SimViewer

theorem sim_step_size_val : step_size = 33 := by
  have h : ⌊((1 : ℚ) / fps) / sim_dt⌋ = 33 := by norm_num [fps, sim_dt]
  rw [step_size, h]
  rfl

theorem usedIdx_eq_min (n frame : ℕ) (h : 0 < n) :
    usedIdx n frame = some (min (frame * step_size) (n - 1)) := by
  have hcast : (frame : ℤ) * (step_size : ℤ) = ((frame * step_size : ℕ) : ℤ) := by
    push_cast
    ring
  simp only [usedIdx, rowIndex, ilocIdx, hcast]
  by_cases hc : (n : ℤ) ≤ ((frame * step_size : ℕ) : ℤ)
  · rw [if_pos hc,
      if_pos (show (0 : ℤ) ≤ (n : ℤ) - 1 ∧ (n : ℤ) - 1 < (n : ℤ) by omega)]
    congr 1
    omega
  · rw [if_neg hc,
      if_pos (show (0 : ℤ) ≤ ((frame * step_size : ℕ) : ℤ) ∧
        ((frame * step_size : ℕ) : ℤ) < (n : ℤ) by omega)]
    congr 1
    omega

theorem usedIdx_zero (frame : ℕ) : usedIdx 0 frame = none := by
  have hk : (0 : ℤ) ≤ (frame : ℤ) * (step_size : ℤ) := by positivity
  unfold usedIdx rowIndex
  rw [Nat.cast_zero, if_pos hk]
  rfl

theorem usedIdx_lt (n frame j : ℕ) (h : usedIdx n frame = some j) : j < n := by
  rcases Nat.eq_zero_or_pos n with h0 | hpos
  · subst h0
    rw [usedIdx_zero] at h
    exact absurd h (by simp)
  · rw [usedIdx_eq_min n frame hpos] at h
    have := Option.some_injective _ h
    omega

theorem update_frameState (sin : ℚ → ℚ) (v : Viewer) (df : List SimRow)
    (frame j : ℕ) (row : SimRow) (L1 L2 : ℚ)
    (hdf : v.df = some df) (hj : usedIdx df.length frame = some j)
    (hrow : df[j]? = some row)
    (hcar : car_params v.current_car = some (L1, L2)) :
    update sin v frame =
      .frameState (mkRenderState sin v.current_car L1 L2 row (accelAt df j)) := by
  simp only [update, hdf, hj, hrow, hcar]

theorem accelAt_zero (rows : List SimRow) : accelAt rows 0 = none := by
  unfold accelAt computeAccel
  cases rows with
  | nil => rfl
  | cons r rs =>
    show ((List.range (rs.length + 1)).map _).getD 0 none = none
    rw [List.range_succ_eq_map]
    rfl

theorem accelAt_succ (rows : List SimRow) (j : ℕ) (r rp : SimRow)
    (h1 : rows[j + 1]? = some r) (h0 : rows[j]? = some rp) :
    accelAt rows (j + 1) = some ((r.v_abs - rp.v_abs) / meanDt rows) := by
  have hlt : j + 1 < rows.length := by
    by_contra hge
    rw [List.getElem?_eq_none (by omega)] at h1
    exact absurd h1 (by simp)
  unfold accelAt computeAccel
  rw [List.getD_eq_getElem?_getD, List.getElem?_map, List.getElem?_range hlt]
  simp [h1, h0]

end HalfCar.SimViewer

namespace HalfCar.Anim

theorem anim_step_size_val : step_size = 16 := by
  have h : ⌊((1 : ℚ) / fps) / sim_dt⌋ = 16 := by norm_num [fps, sim_dt]
  rw [step_size, h]
  rfl

end HalfCar.Anim

open HalfCar

/-- C1 (counterexample): the claim says that once
`frame * stride >= length`, tick returns the RenderState computed from
the final row, for every loaded non-empty series.  animation.py `update`
(lines 30-31) instead takes the early-return path
`if idx >= len(df): return body,` and fetches no row at all: with the
one-row series and frame 1 (index 16 ≥ 1) the result is the skip marker,
not a redraw of the final row. -/
theorem anim_overrun_skips_not_holds :
    ([r0] : List SimRow).length ≤ 1 * Anim.step_size ∧
    Anim.update sin0 [r0] 1 = .skip ∧
    Anim.renderOf (Anim.update sin0 [r0] 1) = none := by
  refine ⟨?_, ?_, ?_⟩
  · rw [Anim.anim_step_size_val]
    norm_num
  · simp [Anim.update, Anim.anim_step_size_val]
  · simp [Anim.update, Anim.anim_step_size_val, Anim.renderOf]

/-- C1 (amended): in sim-viewer.py, `VehicleDynamicsAnimator.update`
uses row index `frame * step_size` clamped to `[0, length - 1]` and,
once `frame * step_size ≥ length`, keeps redrawing the final row — the
same state for every such frame, never an error.  In animation.py,
`update` instead returns early, fetching no row, once
`frame * step_size ≥ length`. -/
theorem rowIndex_clamped_and_holds :
    (∀ (sin : ℚ → ℚ) (v : SimViewer.Viewer) (df : List SimRow) (frame : ℕ),
      v.df = some df → 0 < df.length →
      (SimViewer.car_params v.current_car).isSome →
      SimViewer.usedIdx df.length frame =
        some (min (frame * SimViewer.step_size) (df.length - 1)) ∧
      (SimViewer.renderOf (SimViewer.update sin v frame)).isSome) ∧
    (∀ (sin : ℚ → ℚ) (v : SimViewer.Viewer) (df : List SimRow) (frame : ℕ)
       (rlast : SimRow) (L1 L2 : ℚ),
      v.df = some df → df.length ≤ frame * SimViewer.step_size →
      df[df.length - 1]? = some rlast →
      SimViewer.car_params v.current_car = some (L1, L2) →
      SimViewer.update sin v frame =
        .frameState (SimViewer.mkRenderState sin v.current_car L1 L2 rlast
          (SimViewer.accelAt df (df.length - 1)))) ∧
    (∀ (sin : ℚ → ℚ) (df : List SimRow) (frame : ℕ),
      df.length ≤ frame * Anim.step_size →
      Anim.update sin df frame = .skip) := by
  refine ⟨?_, ?_, ?_⟩
  · intro sin v df frame hdf hpos hcar
    have hidx := SimViewer.usedIdx_eq_min df.length frame hpos
    refine ⟨hidx, ?_⟩
    have hj : min (frame * SimViewer.step_size) (df.length - 1) < df.length := by
      omega
    have hrow := List.getElem?_eq_getElem hj
    obtain ⟨⟨L1, L2⟩, hp⟩ := Option.isSome_iff_exists.mp hcar
    rw [SimViewer.update_frameState sin v df frame _ _ L1 L2 hdf hidx hrow hp]
    rfl
  · intro sin v df frame rlast L1 L2 hdf hge hlast hcar
    have hpos : 0 < df.length := by
      by_contra hz
      have hnil : df = [] := List.length_eq_zero.mp (by omega)
      subst hnil
      simp at hlast
    have hidx := SimViewer.usedIdx_eq_min df.length frame hpos
    have hmin : min (frame * SimViewer.step_size) (df.length - 1) =
        df.length - 1 := by omega
    rw [hmin] at hidx
    exact SimViewer.update_frameState sin v df frame _ rlast L1 L2
      hdf hidx hlast hcar
  · intro sin df frame hge
    have hnone : df[frame * Anim.step_size]? = none := List.getElem?_eq_none hge
    simp only [Anim.update, hnone]

/-- C1 (witness): concrete instances of the amended claim — a two-row
series at frame 5 (index 165 clamps to 1, redraw of the last row) and
the one-row animation.py series at frame 7 (skip). -/
theorem rowIndex_clamped_and_holds_witness :
    (SimViewer.usedIdx 2 5 = some (min (5 * SimViewer.step_size) 1) ∧
      (SimViewer.renderOf
        (SimViewer.update sin0 ⟨some [r0, r1], "GR86", 2, 0⟩ 5)).isSome) ∧
    SimViewer.update sin0 ⟨some [r0, r1], "GR86", 2, 0⟩ 5 =
      .frameState (SimViewer.mkRenderState sin0 "GR86" (128/100) (129/100) r1
        (SimViewer.accelAt [r0, r1] 1)) ∧
    Anim.update sin0 [r0] 7 = .skip := by
  refine ⟨?_, ?_, ?_⟩
  · exact rowIndex_clamped_and_holds.1 sin0 ⟨some [r0, r1], "GR86", 2, 0⟩
      [r0, r1] 5 rfl (by norm_num) rfl
  · exact rowIndex_clamped_and_holds.2.1 sin0 ⟨some [r0, r1], "GR86", 2, 0⟩
      [r0, r1] 5 r1 (128/100) (129/100) rfl
      (by rw [SimViewer.sim_step_size_val]; norm_num) rfl rfl
  · exact rowIndex_clamped_and_holds.2.2 sin0 [r0] 7
      (by rw [Anim.anim_step_size_val]; norm_num)

/-- C2 (counterexample): the claim fixes the stride rule to
`round(displayPeriod / simulationStep)`, predicting 17 for
`simulationStep = 0.001, displayPeriod = 1/60`.  The code computes
`step_size = int((1/fps) / sim_dt)`, which truncates: animation.py
(fps = 60) has stride 16, not 17. -/
theorem stride_truncates_not_rounds :
    Anim.step_size = 16 ∧
    round (((1 : ℚ) / Anim.fps) / Anim.sim_dt) = 17 ∧
    (Anim.step_size : ℤ) ≠ round (((1 : ℚ) / Anim.fps) / Anim.sim_dt) := by
  refine ⟨Anim.anim_step_size_val, ?_, ?_⟩
  · norm_num [Anim.fps, Anim.sim_dt, round_eq]
  · rw [Anim.anim_step_size_val]
    norm_num [Anim.fps, Anim.sim_dt, round_eq]

/-- C2 (amended): the stride is `int(displayPeriod / simulationStep)` —
truncation, not rounding: 33 rows per display frame in sim-viewer.py
(`0.001, 1/30`) and 16 in animation.py (`0.001, 1/60`). -/
theorem stride_values :
    SimViewer.step_size = 33 ∧ Anim.step_size = 16 :=
  ⟨SimViewer.sim_step_size_val, Anim.anim_step_size_val⟩

/-- C3 (counterexample): the claim says a failed `switchProfile` leaves
the frame counter untouched and the next tick reproduces the pre-failure
RenderState.  `change_car` (sim-viewer.py line 98) resets
`ani.frame_seq` unconditionally, also after a failed `load_data`: from
frame-sequence position 1, a failed switch keeps `df` and `current_car`
but rewinds the position to 0, and the following tick renders row 0
(time 0) instead of the pre-failure row 1 (time 1). -/
theorem failed_switch_rewinds_frame_seq :
    (SimViewer.change_car fsNone vC3 "LexusLS").df = vC3.df ∧
    (SimViewer.change_car fsNone vC3 "LexusLS").current_car = vC3.current_car ∧
    vC3.nextFrame = 1 ∧
    (SimViewer.change_car fsNone vC3 "LexusLS").nextFrame = 0 ∧
    (SimViewer.tick sin0 (SimViewer.change_car fsNone vC3 "LexusLS")).map
        (fun p => (SimViewer.renderOf p.1).map SimViewer.RenderState.time) =
      some (some r0.time) ∧
    (SimViewer.tick sin0 vC3).map
        (fun p => (SimViewer.renderOf p.1).map SimViewer.RenderState.time) =
      some (some r1.time) ∧
    r0.time ≠ r1.time := by
  have hcc : SimViewer.change_car fsNone vC3 "LexusLS" =
      (⟨some [r0, r1], "GR86", 2, 0⟩ : SimViewer.Viewer) := rfl
  have hidx0 : SimViewer.usedIdx 2 0 = some 0 := by
    rw [SimViewer.usedIdx_eq_min 2 0 (by omega), SimViewer.sim_step_size_val]
    norm_num
  have hidx1 : SimViewer.usedIdx 2 1 = some 1 := by
    rw [SimViewer.usedIdx_eq_min 2 1 (by omega), SimViewer.sim_step_size_val]
    norm_num
  have h0 : SimViewer.update sin0 ⟨some [r0, r1], "GR86", 2, 0⟩ 0 =
      .frameState (SimViewer.mkRenderState sin0 "GR86" (128/100) (129/100) r0
        (SimViewer.accelAt [r0, r1] 0)) :=
    SimViewer.update_frameState sin0 _ [r0, r1] 0 0 r0 _ _ rfl hidx0 rfl rfl
  have h1 : SimViewer.update sin0 ⟨some [r0, r1], "GR86", 2, 1⟩ 1 =
      .frameState (SimViewer.mkRenderState sin0 "GR86" (128/100) (129/100) r1
        (SimViewer.accelAt [r0, r1] 1)) :=
    SimViewer.update_frameState sin0 _ [r0, r1] 1 1 r1 _ _ rfl hidx1 rfl rfl
  refine ⟨rfl, rfl, rfl, rfl, ?_, ?_, ?_⟩
  · rw [hcc]
    simp [SimViewer.tick, h0, SimViewer.renderOf, SimViewer.mkRenderState, vC3]
  · simp [SimViewer.tick, vC3, h1, SimViewer.renderOf, SimViewer.mkRenderState]
  · norm_num [r0, r1]

/-- C3 (amended): a failed `switchProfile` (missing source) leaves the
active series, the current profile and the frozen frame total exactly as
they were, but always rewinds the frame sequence to position 0 — so the
following tick replays the old series from its first frame rather than
from the pre-failure position. -/
theorem failed_switch_preserves_series_resets_frames :
    ∀ (fs : String → Option (List SimRow)) (v : SimViewer.Viewer)
      (name : String),
      fs ("csv/" ++ name ++ "_sim.csv") = none →
      (SimViewer.change_car fs v name).df = v.df ∧
      (SimViewer.change_car fs v name).current_car = v.current_car ∧
      (SimViewer.change_car fs v name).framesTotal = v.framesTotal ∧
      (SimViewer.change_car fs v name).nextFrame = 0 := by
  intro fs v name h
  simp [SimViewer.change_car, SimViewer.load_data, h]

/-- C3 (witness): the amended claim at a concrete failed switch. -/
theorem failed_switch_preserves_series_resets_frames_witness :
    (SimViewer.change_car fsNone ⟨some [rb], "Samber", 3, 2⟩ "GR86").df =
      some [rb] ∧
    (SimViewer.change_car fsNone ⟨some [rb], "Samber", 3, 2⟩ "GR86").current_car =
      "Samber" ∧
    (SimViewer.change_car fsNone ⟨some [rb], "Samber", 3, 2⟩ "GR86").framesTotal =
      3 ∧
    (SimViewer.change_car fsNone ⟨some [rb], "Samber", 3, 2⟩ "GR86").nextFrame =
      0 :=
  failed_switch_preserves_series_resets_frames fsNone
    ⟨some [rb], "Samber", 3, 2⟩ "GR86" rfl

/-- C4 (counterexample): the claim says a length-0 active series makes
tick return an empty RenderState without failing.  In sim-viewer.py only
`df is None` is guarded; with a loaded empty frame, the clamp
`idx = len(df) - 1` produces `-1` and `df.iloc[-1]` on an empty frame
raises `IndexError` — `update` fails rather than returning a neutral
state. -/
theorem empty_series_update_raises :
    SimViewer.update sin0 ⟨some [], "GR86", 0, 0⟩ 0 = .indexError := by
  simp [SimViewer.update, SimViewer.usedIdx_zero]

/-- C4 (amended): the neutral early return happens only for `df is
None`; a loaded series of length 0 raises `IndexError` in sim-viewer.py
for every frame (animation.py, whose overrun guard also covers the
empty list, skips harmlessly). -/
theorem update_none_vs_empty :
    ∀ (sin : ℚ → ℚ) (v : SimViewer.Viewer) (frame : ℕ),
      (v.df = none → SimViewer.update sin v frame = .noData) ∧
      (v.df = some [] → SimViewer.update sin v frame = .indexError) ∧
      Anim.update sin [] frame = .skip := by
  intro sin v frame
  refine ⟨?_, ?_, ?_⟩
  · intro h
    simp [SimViewer.update, h]
  · intro h
    simp [SimViewer.update, h, SimViewer.usedIdx_zero]
  · simp [Anim.update]

/-- C4 (witness): the amended claim at concrete states. -/
theorem update_none_vs_empty_witness :
    SimViewer.update sin0 ⟨none, "GR86", 0, 0⟩ 3 = .noData ∧
    SimViewer.update sin0 ⟨some [], "Samber", 0, 0⟩ 3 = .indexError ∧
    Anim.update sin0 [] 3 = .skip :=
  ⟨(update_none_vs_empty sin0 ⟨none, "GR86", 0, 0⟩ 3).1 rfl,
   (update_none_vs_empty sin0 ⟨some [], "Samber", 0, 0⟩ 3).2.1 rfl,
   (update_none_vs_empty sin0 ⟨none, "GR86", 0, 0⟩ 3).2.2⟩

/-- C5 (confirmed): for every rendered row the body segment runs from
`(xAbs - L2, yRear)` to `(xAbs + L1, yFront)` with
`yFront = ys + L1*sin(theta) + groundOffset` and
`yRear = ys - L2*sin(theta) + groundOffset` — ground offset `0.75` in
sim-viewer.py and `0.5` in animation.py. -/
theorem body_segment_formula :
    (∀ (sin : ℚ → ℚ) (v : SimViewer.Viewer) (df : List SimRow)
       (frame j : ℕ) (row : SimRow) (L1 L2 : ℚ),
      v.df = some df → SimViewer.usedIdx df.length frame = some j →
      df[j]? = some row →
      SimViewer.car_params v.current_car = some (L1, L2) →
      (SimViewer.renderOf (SimViewer.update sin v frame)).map
          SimViewer.RenderState.body =
        some ((row.x_abs - L2, row.ys - L2 * sin row.theta + 3/4),
              (row.x_abs + L1, row.ys + L1 * sin row.theta + 3/4))) ∧
    (∀ (sin : ℚ → ℚ) (df : List SimRow) (frame : ℕ) (row : SimRow),
      df[frame * Anim.step_size]? = some row →
      (Anim.renderOf (Anim.update sin df frame)).map Anim.AnimState.body =
        some ((row.x_abs - Anim.L2, row.ys - Anim.L2 * sin row.theta + 1/2),
              (row.x_abs + Anim.L1, row.ys + Anim.L1 * sin row.theta + 1/2))) := by
  constructor
  · intro sin v df frame j row L1 L2 hdf hj hrow hcar
    rw [SimViewer.update_frameState sin v df frame j row L1 L2 hdf hj hrow hcar]
    simp [SimViewer.renderOf, SimViewer.mkRenderState]
  · intro sin df frame row hrow
    simp [Anim.update, hrow, Anim.renderOf]

/-- C5 (witness): the worked example of the spec — row
`{x_abs: 10, ys: 0, theta: 0}` with `L1 = 1.2, L2 = 1.3`, ground offset
`0.5` gives the body segment from `(8.7, 0.5)` to `(11.2, 0.5)`. -/
theorem body_segment_formula_witness :
    (Anim.renderOf (Anim.update sin0 [exRow] 0)).map Anim.AnimState.body =
      some ((87/10, 1/2), (112/10, 1/2)) := by
  have hrow : ([exRow] : List SimRow)[0 * Anim.step_size]? = some exRow := by
    rw [Anim.anim_step_size_val]
    rfl
  have h := body_segment_formula.2 sin0 [exRow] 0 exRow hrow
  exact h.trans (by norm_num [exRow, Anim.L1, Anim.L2, sin0])

/-- C6 (counterexample): the claim puts the wheel centers at
`(xAbs ± L, unsprungHeight + groundOffset)` with the same ground offset
as the body formulas.  In sim-viewer.py the body formulas use `+ 0.75`
(lines 116-117) but the wheel centers use `+ 0.25` — the wheel radius,
not the ground offset (lines 123-124): at the all-zero row the rendered
front wheel height is `1/4` while the body ground offset is `3/4`. -/
theorem wheel_center_offset_mismatch :
    (SimViewer.renderOf (SimViewer.update sin0 ⟨some [r0], "GR86", 1, 0⟩ 0)).map
        (fun s => s.wheel_f) = some (128/100, 1/4) ∧
    (SimViewer.renderOf (SimViewer.update sin0 ⟨some [r0], "GR86", 1, 0⟩ 0)).map
        (fun s => s.body.2.2) = some (3/4) ∧
    ((1 : ℚ)/4) ≠ 3/4 := by
  have hidx : SimViewer.usedIdx 1 0 = some 0 := by
    rw [SimViewer.usedIdx_eq_min 1 0 (by omega), SimViewer.sim_step_size_val]
    norm_num
  have hu : SimViewer.update sin0 ⟨some [r0], "GR86", 1, 0⟩ 0 =
      .frameState (SimViewer.mkRenderState sin0 "GR86" (128/100) (129/100) r0
        (SimViewer.accelAt [r0] 0)) :=
    SimViewer.update_frameState sin0 _ [r0] 0 0 r0 _ _ rfl hidx rfl rfl
  refine ⟨?_, ?_, by norm_num⟩
  · rw [hu]
    norm_num [SimViewer.renderOf, SimViewer.mkRenderState, r0]
  · rw [hu]
    norm_num [SimViewer.renderOf, SimViewer.mkRenderState, r0, sin0]

/-- C6 (amended): the wheel centers sit at the unsprung heights plus the
wheel radius `0.25` in sim-viewer.py (distinct from the `0.75` body
ground offset), and exactly at the unsprung heights (no offset) in
animation.py. -/
theorem wheel_center_formula :
    (∀ (sin : ℚ → ℚ) (v : SimViewer.Viewer) (df : List SimRow)
       (frame j : ℕ) (row : SimRow) (L1 L2 : ℚ),
      v.df = some df → SimViewer.usedIdx df.length frame = some j →
      df[j]? = some row →
      SimViewer.car_params v.current_car = some (L1, L2) →
      (SimViewer.renderOf (SimViewer.update sin v frame)).map
          (fun s => (s.wheel_f, s.wheel_r)) =
        some ((row.x_abs + L1, row.yu1 + 1/4),
              (row.x_abs - L2, row.yu2 + 1/4))) ∧
    (∀ (sin : ℚ → ℚ) (df : List SimRow) (frame : ℕ) (row : SimRow),
      df[frame * Anim.step_size]? = some row →
      (Anim.renderOf (Anim.update sin df frame)).map
          (fun s => (s.wheel_f, s.wheel_r)) =
        some ((row.x_abs + Anim.L1, row.yu1),
              (row.x_abs - Anim.L2, row.yu2))) := by
  constructor
  · intro sin v df frame j row L1 L2 hdf hj hrow hcar
    rw [SimViewer.update_frameState sin v df frame j row L1 L2 hdf hj hrow hcar]
    simp [SimViewer.renderOf, SimViewer.mkRenderState]
  · intro sin df frame row hrow
    simp [Anim.update, hrow, Anim.renderOf]

/-- C6 (witness): the amended claim at concrete rows — sim-viewer wheel
centers `0.25` above the unsprung heights, animation.py centers exactly
at them. -/
theorem wheel_center_formula_witness :
    (SimViewer.renderOf (SimViewer.update sin0 ⟨some [r1], "Samber", 1, 0⟩ 0)).map
        (fun s => (s.wheel_f, s.wheel_r)) =
      some ((1 + 95/100, 1/4), (1 - 95/100, 1/4)) ∧
    (Anim.renderOf (Anim.update sin0 [exRow] 0)).map
        (fun s => (s.wheel_f, s.wheel_r)) =
      some ((112/10, 0), (87/10, 0)) := by
  constructor
  · have hidx : SimViewer.usedIdx 1 0 = some 0 := by
      rw [SimViewer.usedIdx_eq_min 1 0 (by omega), SimViewer.sim_step_size_val]
      norm_num
    have h := wheel_center_formula.1 sin0 ⟨some [r1], "Samber", 1, 0⟩ [r1] 0 0 r1
      (95/100) (95/100) rfl hidx rfl rfl
    exact h.trans (by norm_num [r1])
  · have hrow : ([exRow] : List SimRow)[0 * Anim.step_size]? = some exRow := by
      rw [Anim.anim_step_size_val]
      rfl
    have h := wheel_center_formula.2 sin0 [exRow] 0 exRow hrow
    exact h.trans (by norm_num [exRow, Anim.L1, Anim.L2])

/-- C7 (confirmed): after a successful load the derived acceleration
sequence has `accel[0]` undefined (NaN) and
`accel[i] = (v_abs[i] - v_abs[i-1]) / meanDt` for `i > 0`, where
`meanDt` is the single series-wide mean of consecutive time deltas. -/
theorem accel_derivation :
    ∀ (fs : String → Option (List SimRow)) (v : SimViewer.Viewer)
      (name : String) (rows : List SimRow) (j : ℕ) (r rp : SimRow),
      fs ("csv/" ++ name ++ "_sim.csv") = some rows →
      (SimViewer.load_data fs v name).df = some rows ∧
      SimViewer.accelAt rows 0 = none ∧
      (rows[j + 1]? = some r → rows[j]? = some rp →
        SimViewer.accelAt rows (j + 1) =
          some ((r.v_abs - rp.v_abs) / SimViewer.meanDt rows)) := by
  intro fs v name rows j r rp hfs
  refine ⟨by simp [SimViewer.load_data, hfs], SimViewer.accelAt_zero rows, ?_⟩
  intro h1 h0
  exact SimViewer.accelAt_succ rows j r rp h1 h0

/-- C7 (witness): the load and the derived channel at the three-sample
series; `meanDt = 1` there, so `accel[1] = 3`. -/
theorem accel_derivation_witness :
    (SimViewer.load_data fs3 ⟨none, "GR86", 0, 0⟩ "GR86").df =
      some [r0, ra, rb] ∧
    SimViewer.accelAt [r0, ra, rb] 0 = none ∧
    SimViewer.accelAt [r0, ra, rb] 1 =
      some ((ra.v_abs - r0.v_abs) / SimViewer.meanDt [r0, ra, rb]) := by
  have h := accel_derivation fs3 ⟨none, "GR86", 0, 0⟩ "GR86" [r0, ra, rb] 0
    ra r0 rfl
  exact ⟨h.1, h.2.1, h.2.2 rfl rfl⟩

/-- C8 (confirmed): the braking flag equals `accel < -1.0` at the
rendered row, and whenever the rendered row index is 0 the flag is
false (the NaN acceleration there compares false), regardless of the
other rows. -/
theorem braking_classification :
    ∀ (sin : ℚ → ℚ) (v : SimViewer.Viewer) (df : List SimRow)
      (frame j : ℕ),
      v.df = some df → SimViewer.usedIdx df.length frame = some j →
      (SimViewer.car_params v.current_car).isSome →
      (∀ a : ℚ, SimViewer.accelAt df j = some a →
        (SimViewer.renderOf (SimViewer.update sin v frame)).map
          SimViewer.RenderState.braking = some (decide (a < -1))) ∧
      (j = 0 →
        (SimViewer.renderOf (SimViewer.update sin v frame)).map
          SimViewer.RenderState.braking = some false) := by
  intro sin v df frame j hdf hj hcar
  have hjlt := SimViewer.usedIdx_lt df.length frame j hj
  have hrow := List.getElem?_eq_getElem hjlt
  obtain ⟨⟨L1, L2⟩, hp⟩ := Option.isSome_iff_exists.mp hcar
  have hu := SimViewer.update_frameState sin v df frame j _ L1 L2 hdf hj hrow hp
  constructor
  · intro a ha
    rw [hu]
    simp [SimViewer.renderOf, SimViewer.mkRenderState, ha]
  · intro hj0
    subst hj0
    rw [hu]
    simp [SimViewer.renderOf, SimViewer.mkRenderState, SimViewer.accelAt_zero]

/-- C8 (witness): the decelerating two-row series (10 → 5 m/s in 1 s,
`accel[1] = -5 < -1`) brakes at frame 1 and, by the index-0 rule, does
not brake at frame 0. -/
theorem braking_classification_witness :
    (SimViewer.renderOf (SimViewer.update sin0 ⟨some [rc0, rc1], "GR86", 2, 0⟩ 1)).map
      SimViewer.RenderState.braking = some true ∧
    (SimViewer.renderOf (SimViewer.update sin0 ⟨some [rc0, rc1], "GR86", 2, 0⟩ 0)).map
      SimViewer.RenderState.braking = some false := by
  have hidx1 : SimViewer.usedIdx 2 1 = some 1 := by
    rw [SimViewer.usedIdx_eq_min 2 1 (by omega), SimViewer.sim_step_size_val]
    norm_num
  have hidx0 : SimViewer.usedIdx 2 0 = some 0 := by
    rw [SimViewer.usedIdx_eq_min 2 0 (by omega), SimViewer.sim_step_size_val]
    norm_num
  have haccel : SimViewer.accelAt [rc0, rc1] 1 = some (-5) := by
    rw [show (1 : ℕ) = 0 + 1 from rfl,
      SimViewer.accelAt_succ [rc0, rc1] 0 rc1 rc0 rfl rfl]
    norm_num [SimViewer.meanDt, SimViewer.timeDiffs, rc0, rc1]
  have h1 := (braking_classification sin0 ⟨some [rc0, rc1], "GR86", 2, 0⟩
    [rc0, rc1] 1 1 rfl hidx1 rfl).1 (-5) haccel
  have h0 := (braking_classification sin0 ⟨some [rc0, rc1], "GR86", 2, 0⟩
    [rc0, rc1] 0 0 rfl hidx0 rfl).2 rfl
  have hlt : ((-5 : ℚ) < -1) := by norm_num
  rw [decide_eq_true hlt] at h1
  exact ⟨h1, h0⟩

/-- C9 (confirmed): on every rendered frame the camera window is
`[xAbs - 5, xAbs + 5]` (width exactly `2 * 5`) and the vertical range is
the constant `[-1, 3]` — in both viewers. -/
theorem camera_window :
    (∀ (sin : ℚ → ℚ) (v : SimViewer.Viewer) (df : List SimRow)
       (frame j : ℕ) (row : SimRow) (L1 L2 : ℚ),
      v.df = some df → SimViewer.usedIdx df.length frame = some j →
      df[j]? = some row →
      SimViewer.car_params v.current_car = some (L1, L2) →
      (SimViewer.renderOf (SimViewer.update sin v frame)).map
          (fun s => (s.xlim, s.ylim)) =
        some ((row.x_abs - 5, row.x_abs + 5), (-1, 3)) ∧
      (SimViewer.renderOf (SimViewer.update sin v frame)).map
          (fun s => s.xlim.2 - s.xlim.1) = some (2 * 5)) ∧
    (∀ (sin : ℚ → ℚ) (df : List SimRow) (frame : ℕ) (row : SimRow),
      df[frame * Anim.step_size]? = some row →
      (Anim.renderOf (Anim.update sin df frame)).map
          (fun s => (s.xlim, s.ylim)) =
        some ((row.x_abs - 5, row.x_abs + 5), (-1, 3))) := by
  constructor
  · intro sin v df frame j row L1 L2 hdf hj hrow hcar
    have hu := SimViewer.update_frameState sin v df frame j row L1 L2
      hdf hj hrow hcar
    constructor
    · rw [hu]
      simp [SimViewer.renderOf, SimViewer.mkRenderState]
    · rw [hu]
      simp [SimViewer.renderOf, SimViewer.mkRenderState]
      ring
  · intro sin df frame row hrow
    simp [Anim.update, hrow, Anim.renderOf]

/-- C9 (witness): the camera window around the example row at
`x_abs = 10`: `[5, 15]` with constant `[-1, 3]` vertical range, width
10, in both viewers. -/
theorem camera_window_witness :
    ((SimViewer.renderOf (SimViewer.update sin0 ⟨some [exRow], "GR86", 1, 0⟩ 0)).map
        (fun s => (s.xlim, s.ylim)) = some ((10 - 5, 10 + 5), (-1, 3)) ∧
      (SimViewer.renderOf (SimViewer.update sin0 ⟨some [exRow], "GR86", 1, 0⟩ 0)).map
        (fun s => s.xlim.2 - s.xlim.1) = some (2 * 5)) ∧
    (Anim.renderOf (Anim.update sin0 [exRow] 0)).map
        (fun s => (s.xlim, s.ylim)) = some ((10 - 5, 10 + 5), (-1, 3)) := by
  have hidx : SimViewer.usedIdx 1 0 = some 0 := by
    rw [SimViewer.usedIdx_eq_min 1 0 (by omega), SimViewer.sim_step_size_val]
    norm_num
  have hrow : ([exRow] : List SimRow)[0 * Anim.step_size]? = some exRow := by
    rw [Anim.anim_step_size_val]
    rfl
  have h1 := (camera_window.1 sin0 ⟨some [exRow], "GR86", 1, 0⟩ [exRow] 0 0 exRow
    (128/100) (129/100) rfl hidx rfl rfl)
  have h2 := camera_window.2 sin0 [exRow] 0 exRow hrow
  exact ⟨⟨h1.1.trans (by norm_num [exRow]), h1.2⟩,
    h2.trans (by norm_num [exRow])⟩

/-- C10 (confirmed): the frame total `len(df) // step_size` is computed
once at construction from the initially loaded series and stored in
`FuncAnimation`; `change_car` never changes it, so `new_frame_seq`
re-yields the same `range` regardless of the length of any
later-loaded series. -/
theorem frames_total_frozen :
    (∀ (fs : String → Option (List SimRow)) (v : SimViewer.Viewer)
       (name : String),
      SimViewer.frameSeq (SimViewer.change_car fs v name) =
        SimViewer.frameSeq v ∧
      (SimViewer.change_car fs v name).framesTotal = v.framesTotal) ∧
    (∀ (fs : String → Option (List SimRow)) (rows : List SimRow)
       (v : SimViewer.Viewer),
      fs ("csv/GR86_sim.csv") = some rows →
      SimViewer.newViewer fs = some v →
      v.framesTotal = rows.length / SimViewer.step_size ∧
      SimViewer.frameSeq v = List.range (rows.length / SimViewer.step_size)) := by
  constructor
  · intro fs v name
    have h : (SimViewer.change_car fs v name).framesTotal = v.framesTotal := by
      unfold SimViewer.change_car SimViewer.load_data
      cases fs ("csv/" ++ name ++ "_sim.csv") <;> rfl
    exact ⟨by simp [SimViewer.frameSeq, h], h⟩
  · intro fs rows v hfs hv
    have hfs' : fs ("csv/" ++ "GR86" ++ "_sim.csv") = some rows := hfs
    simp only [SimViewer.newViewer, SimViewer.load_data] at hv
    rw [hfs'] at hv
    simp only [Option.some.injEq] at hv
    subst hv
    exact ⟨rfl, rfl⟩

/-- C10 (witness): a concrete failed-and-successful switch leaves the
frame total at its constructed value, and construction over the
three-row series freezes `3 // 33 = 0` frames. -/
theorem frames_total_frozen_witness :
    (SimViewer.frameSeq (SimViewer.change_car fs3 vC3 "Samber") =
        SimViewer.frameSeq vC3 ∧
      (SimViewer.change_car fs3 vC3 "Samber").framesTotal = vC3.framesTotal) ∧
    ((⟨some [r0, ra, rb], "GR86",
        [r0, ra, rb].length / SimViewer.step_size, 0⟩ :
      SimViewer.Viewer).framesTotal =
        [r0, ra, rb].length / SimViewer.step_size ∧
      SimViewer.frameSeq
          (⟨some [r0, ra, rb], "GR86",
            [r0, ra, rb].length / SimViewer.step_size, 0⟩ : SimViewer.Viewer) =
        List.range ([r0, ra, rb].length / SimViewer.step_size)) ∧
    [r0, ra, rb].length / SimViewer.step_size = 0 := by
  refine ⟨frames_total_frozen.1 fs3 vC3 "Samber", ?_, ?_⟩
  · exact frames_total_frozen.2 fs3 [r0, ra, rb]
      ⟨some [r0, ra, rb], "GR86", [r0, ra, rb].length / SimViewer.step_size, 0⟩
      rfl rfl
  · rw [SimViewer.sim_step_size_val]
    rfl
